import Mathlib

/-!
Verification of the FreeRADIUS management API against its specification.

The repository ships two complete variants of the service:
the raw-SQL variant (`api-service/app.py`), embedded below in namespace `App`
over an explicit relational state `Db`, and the in-memory test variant
(`api-service/test_app.py`), embedded in namespace `TestApp` over a `MockState`
of insertion-ordered association lists that model Python dictionaries.
Each handler is translated statement-for-statement from the Python source:
SQL `COUNT(*) WHERE c` becomes `List.countP`, `SELECT ... WHERE c` becomes
`List.filter`, `INSERT` appends a row, `DELETE ... WHERE c` filters rows out,
and `LIMIT l OFFSET o` becomes `drop o` then `take l`.  A handler is a function
from the store to a response paired with the updated store; the HTTP status
code and response body are explicit in the `Resp` type.
-/

/-- An HTTP response: either a success with a status code and a typed body,
or an HTTPException-style error with a status code, a detail string and
extra headers. -/
inductive Resp (α : Type) where
  | ok (status : Nat) (body : α)
  | err (status : Nat) (detail : String) (headers : List (String × String))
deriving DecidableEq

/-- The HTTP status code of a response. -/
def Resp.statusCode {α : Type} : Resp α → Nat
  | .ok s _ => s
  | .err s _ _ => s

/-- True when the response is a 401 carrying the WWW-Authenticate Bearer
challenge header. -/
def Resp.challengeHeader {α : Type} : Resp α → Bool
  | .err 401 _ hs => hs.contains ("WWW-Authenticate", "Bearer")
  | _ => false

/-- Response body for the StatusResponse pydantic model. -/
structure StatusResponse where
  message : String
deriving DecidableEq

/-- Response body for the PaginatedResponse pydantic model; both variants
return rows that carry a single `groupname` column, so `data` is the list of
group names. -/
structure Paginated where
  count : Nat
  data : List String
deriving DecidableEq

/-- The `count` field of a paginated response (0 on an error response). -/
def Resp.bodyCount : Resp Paginated → Nat
  | .ok _ b => b.count
  | .err _ _ _ => 0

/-- The number of rows in the `data` field of a paginated response. -/
def Resp.bodyLen : Resp Paginated → Nat
  | .ok _ b => b.data.length
  | .err _ _ _ => 0

/-- Response body of GET /user/{username}: the raw (username, value) pairs. -/
structure LogData where
  logdata : List (String × String)
deriving DecidableEq

/-- Response body of GET /online/{username}. -/
structure OnlineStatus where
  status : String
deriving DecidableEq

/-- Outcome of the bearer-token dependency: either the credential is accepted
or the request is rejected with an HTTP error. -/
inductive TokenCheck where
  | accepted (token : String)
  | rejected (status : Nat) (detail : String) (headers : List (String × String))
deriving DecidableEq

/-- Modelled from the spec: the rejection produced by the `HTTPBearer` security
scheme when the request has no bearer credential at all.  That branch lives in
the HTTP framework, outside this repository's sources; the spec (section 4.4)
says "Mismatch or absence yields an `Unauthorized` condition with a challenge
hint", so absence is modelled as a 401 with the Bearer challenge header. -/
def httpBearerMissing : TokenCheck :=
  .rejected 401 "Not authenticated" [("WWW-Authenticate", "Bearer")]

/-- A row of the `radcheck` table (per-user check attributes).  The SQL column
named `attribute` is rendered `attr` because `attribute` is a Lean keyword. -/
structure RadRow where
  username : String
  attr : String
  op : String
  value : String
deriving DecidableEq

/-- A row of the `radgroupcheck` or `radgroupreply` table (per-package
attributes). -/
structure GroupRow where
  groupname : String
  attr : String
  op : String
  value : String
deriving DecidableEq

/-- A row of the `radusergroup` table (user-to-package membership). -/
structure UserGroupRow where
  username : String
  groupname : String
deriving DecidableEq

/-- A row of the `radacct` accounting table, with the columns the service
reads; `acctstoptime IS NULL` (here `none`) marks a session as still open. -/
structure AcctRow where
  radacctid : Nat
  username : String
  acctterminatecause : String
  callingstationid : String
  nasipaddress : String
  acctstarttime : Option String
  acctupdatetime : Option String
  acctstoptime : Option String
  acctsessiontime : Option Nat
  acctinputoctets : Nat
  acctoutputoctets : Nat
  framedipaddress : String
deriving DecidableEq

/-- A row of the `nas` table, fields in the order of the INSERT in app.py. -/
structure NasRow where
  nasname : String
  shortname : String
  type : String
  secret : String
  description : String
deriving DecidableEq

/-- The relational state behind the raw-SQL variant: the five tables the
service touches.  Row order models physical storage order; inserts append. -/
structure Db where
  radcheck : List RadRow
  radgroupcheck : List GroupRow
  radgroupreply : List GroupRow
  radusergroup : List UserGroupRow
  radacct : List AcctRow
  nas : List NasRow
deriving DecidableEq

/-- A database with all tables empty. -/
def emptyDb : Db := ⟨[], [], [], [], [], []⟩

/-- Distinct values of a column in first-occurrence order; embeds both
`COUNT(DISTINCT groupname)` and `SELECT DISTINCT groupname GROUP BY groupname`
(the source relies on the storage order, no ORDER BY). -/
def distinct (l : List String) : List String :=
  l.foldl (fun acc g => if acc.contains g then acc else acc ++ [g]) []

/-- Lookup in a Python-dictionary-like association list. -/
def alookup {β : Type} (l : List (String × β)) (k : String) : Option β :=
  (l.find? (fun p => p.1 == k)).map (fun p => p.2)

/-- Insertion of a fresh key into a Python dictionary: appended at the end
(all call sites insert only after checking the key is absent). -/
def ainsert {β : Type} (l : List (String × β)) (k : String) (v : β) :
    List (String × β) :=
  l ++ [(k, v)]

/-- Deletion of a key from a Python dictionary. -/
def aerase {β : Type} (l : List (String × β)) (k : String) : List (String × β) :=
  l.filter (fun p => p.1 != k)

/-- Python list slice `l[a:b]` for non-negative bounds. -/
def pySlice {α : Type} (l : List α) (a b : Nat) : List α :=
  (l.take b).drop a

namespace App

/-- verify_token from app.py: the supplied credential must equal the
configured bearer secret exactly; otherwise 401 with a Bearer challenge.
The `none` case (no credential supplied) is delegated to the framework's
bearer scheme, modelled by `httpBearerMissing`. -/
def verify_token (bearerToken : String) (credentials : Option String) :
    TokenCheck :=
  match credentials with
  | none => httpBearerMissing
  | some c =>
      if c != bearerToken then
        .rejected 401 "Invalid authentication token" [("WWW-Authenticate", "Bearer")]
      else
        .accepted c

/-- The Depends(verify_token) wiring of every protected route in app.py:
the token check runs before the handler body, and a rejection is returned
without the handler (and hence the store) ever being consulted. -/
def guarded {α : Type} (bearerToken : String) (credentials : Option String)
    (handler : Db → Resp α × Db) (db : Db) : Resp α × Db :=
  match verify_token bearerToken credentials with
  | .accepted _ => handler db
  | .rejected s d h => (.err s d h, db)

/-- POST /package from app.py: reject if any radgroupcheck row carries the
group name, else insert the Simultaneous-Use check row and the two reply
rows in one transaction; the route declares status 201 on success. -/
def create_package (db : Db) (package pool : String) :
    Resp StatusResponse × Db :=
  if 0 < db.radgroupcheck.countP (fun r => r.groupname == package) then
    (.err 400 "Package already exists" [], db)
  else
    (.ok 201 ⟨"Package created successfully"⟩,
     { db with
        radgroupcheck :=
          db.radgroupcheck ++ [⟨package, "Simultaneous-Use", ":=", "1"⟩],
        radgroupreply :=
          db.radgroupreply ++
            [⟨package, "Framed-Pool", "=", pool⟩,
             ⟨package, "Acct-Interim-Interval", "=", "120"⟩] })

/-- GET /package/{limit}/{offset} from app.py: COUNT(DISTINCT groupname)
plus a DISTINCT page with LIMIT/OFFSET.  The path converters accept any
integer, but a negative value makes the backend LIMIT clause fail the
request, so the embedding covers the non-negative domain. -/
def get_packages (db : Db) (limit offset : Nat) : Resp Paginated × Db :=
  (.ok 200
    ⟨(distinct (db.radgroupcheck.map (fun r => r.groupname))).length,
     ((distinct (db.radgroupcheck.map (fun r => r.groupname))).drop offset).take
       limit⟩,
   db)

/-- The number of packages a store holds: distinct group names appearing in
radgroupcheck rows (the spec's definition of package existence). -/
def numPackages (db : Db) : Nat :=
  (distinct (db.radgroupcheck.map (fun r => r.groupname))).length

/-- POST /user from app.py: reject if any radcheck row carries the username,
else insert the password row, the expiration row and the membership row in
one transaction.  Note the source performs no check that the referenced
package exists. -/
def create_user (db : Db) (username passwd expdate package : String) :
    Resp StatusResponse × Db :=
  if 0 < db.radcheck.countP (fun r => r.username == username) then
    (.err 400 "User already exists" [], db)
  else
    (.ok 201 ⟨"User created successfully"⟩,
     { db with
        radcheck :=
          db.radcheck ++
            [⟨username, "Cleartext-Password", ":=", passwd⟩,
             ⟨username, "Expiration", ":=", expdate⟩],
        radusergroup := db.radusergroup ++ [⟨username, package⟩] })

/-- GET /user/{username} from app.py: select (username, value) pairs from
radcheck; 404 when the result set is empty. -/
def get_user (db : Db) (username : String) : Resp LogData × Db :=
  if ((db.radcheck.filter (fun r => r.username == username)).map
        (fun r => (r.username, r.value))).isEmpty then
    (.err 404 "User not found" [], db)
  else
    (.ok 200
       ⟨(db.radcheck.filter (fun r => r.username == username)).map
          (fun r => (r.username, r.value))⟩,
     db)

/-- DELETE /user/{username} from app.py: 404 when no radcheck row carries the
username, else delete the user's radcheck and radusergroup rows in one
transaction. -/
def delete_user (db : Db) (username : String) : Resp StatusResponse × Db :=
  if db.radcheck.countP (fun r => r.username == username) = 0 then
    (.err 404 "User not found" [], db)
  else
    (.ok 200 ⟨"User deleted successfully"⟩,
     { db with
        radcheck := db.radcheck.filter (fun r => r.username != username),
        radusergroup :=
          db.radusergroup.filter (fun r => r.username != username) })

/-- GET /online/{username} from app.py: 404 when no radcheck row carries the
username, else "Online" exactly when some radacct row for the user has a
NULL stop time. -/
def get_user_online_status (db : Db) (username : String) :
    Resp OnlineStatus × Db :=
  if db.radcheck.countP (fun r => r.username == username) = 0 then
    (.err 404 "User not found" [], db)
  else
    (.ok 200
       ⟨if 0 < db.radacct.countP
             (fun r => r.username == username && r.acctstoptime == none) then
          "Online"
        else "Offline"⟩,
     db)

/-- POST /nas handler body from app.py: reject when a nas row with the name
exists, else insert one row.  The route declares no explicit status code, so
success is the framework default 200. -/
def create_nas (db : Db) (nasname shortname secret ty description : String) :
    Resp StatusResponse × Db :=
  if 0 < db.nas.countP (fun r => r.nasname == nasname) then
    (.err 400 "NAS already exists" [], db)
  else
    (.ok 200 ⟨"NAS created successfully"⟩,
     { db with nas := db.nas ++ [⟨nasname, shortname, ty, secret, description⟩] })

/-- POST /nas route from app.py including the query-parameter defaults:
`type` defaults to "other" and `description` to "RADIUS Client" when the
query parameters are omitted. -/
def create_nas_route (db : Db) (nasname shortname secret : String)
    (ty description : Option String) : Resp StatusResponse × Db :=
  create_nas db nasname shortname secret (ty.getD "other")
    (description.getD "RADIUS Client")

/-- Outcome of the external radclient invocation: either the process exited
with a return code (and produced output), or the 30-second timeout fired. -/
inductive CmdOutcome where
  | exited (returncode : Int) (stdout stderr : String)
  | timedOut
deriving DecidableEq

/-- The shape of the single external command POST /session-dis issues:
radclient with retry count 1 against the NAS dynamic-authorization port 3799
using the hard-coded shared secret, run under a 30-second timeout. -/
structure DisconnectCmd where
  sessionArg : String
  nasArg : String
  port : Nat
  retries : Nat
  sharedSecret : String
  timeoutSeconds : Nat
deriving DecidableEq

/-- The command POST /session-dis builds for a given session and NAS. -/
def disconnectCmd (session nas : String) : DisconnectCmd :=
  ⟨session, nas, 3799, 1, "RGL@dmin321#", 30⟩

/-- POST /session-dis from app.py: 200 exactly on a zero return code; any
non-zero return code yields a fixed 500 detail, a timeout yields a fixed 500
detail; the process output never reaches the response. -/
def disconnect_session (outcome : CmdOutcome) : Resp StatusResponse :=
  match outcome with
  | .exited rc _ _ =>
      if rc = 0 then .ok 200 ⟨"User session disconnected successfully"⟩
      else .err 500 "Session disconnect failed" []
  | .timedOut => .err 500 "Session disconnect timeout" []

/-- A user exists in the sense of the spec: at least one radcheck row
carries the username. -/
def UserHasCheckRow (db : Db) (u : String) : Prop :=
  ∃ r ∈ db.radcheck, r.username = u

instance (db : Db) (u : String) : Decidable (UserHasCheckRow db u) :=
  inferInstanceAs (Decidable (∃ r ∈ db.radcheck, r.username = u))

/-- The user has at least one accounting session with a NULL stop time. -/
def HasOpenSession (db : Db) (u : String) : Prop :=
  ∃ r ∈ db.radacct, r.username = u ∧ r.acctstoptime = none

instance (db : Db) (u : String) : Decidable (HasOpenSession db u) :=
  inferInstanceAs (Decidable (∃ r ∈ db.radacct, r.username = u ∧ r.acctstoptime = none))

end App

/-- A value of the mock_users dictionary in test_app.py. -/
structure MockUser where
  username : String
  passwd : String
  expdate : String
  package : String
  created : String
deriving DecidableEq

/-- A value of the mock_packages dictionary in test_app.py; the entry seeded
at startup carries no created timestamp, entries made by the endpoint do. -/
structure MockPackage where
  package : String
  pool : String
  profile : String
  created : Option String
deriving DecidableEq

/-- A value of the mock_nas dictionary in test_app.py. -/
structure MockNas where
  nasname : String
  shortname : String
  secret : String
  type : String
  description : String
  created : String
deriving DecidableEq

/-- The four module-level dictionaries of test_app.py, as insertion-ordered
association lists.  mock_accounting is never written by the source, only
deleted from; its value type is unconstrained there and modelled as String. -/
structure MockState where
  mock_users : List (String × MockUser)
  mock_packages : List (String × MockPackage)
  mock_accounting : List (String × String)
  mock_nas : List (String × MockNas)
deriving DecidableEq

/-- The mock store right after the lifespan hook seeded basic_package. -/
def mockInit : MockState :=
  ⟨[], [("basic_package", ⟨"basic_package", "basic_pool", "basic_profile", none⟩)],
   [], []⟩

namespace TestApp

/-- verify_token from test_app.py; textually identical to the app.py one. -/
def verify_token (bearerToken : String) (credentials : Option String) :
    TokenCheck :=
  match credentials with
  | none => httpBearerMissing
  | some c =>
      if c != bearerToken then
        .rejected 401 "Invalid authentication token" [("WWW-Authenticate", "Bearer")]
      else
        .accepted c

/-- The Depends(verify_token) wiring of every protected route in
test_app.py. -/
def guarded {α : Type} (bearerToken : String) (credentials : Option String)
    (handler : MockState → Resp α × MockState) (st : MockState) :
    Resp α × MockState :=
  match verify_token bearerToken credentials with
  | .accepted _ => handler st
  | .rejected s d h => (.err s d h, st)

/-- POST /package from test_app.py; the body here additionally requires a
profile field.  `now` is the datetime.now() timestamp recorded on the
entry. -/
def create_package (now : String) (st : MockState)
    (package pool profile : String) : Resp StatusResponse × MockState :=
  if (alookup st.mock_packages package).isSome then
    (.err 400 "Package already exists" [], st)
  else
    (.ok 201 ⟨"Package created successfully"⟩,
     { st with
        mock_packages :=
          ainsert st.mock_packages package ⟨package, pool, profile, some now⟩ })

/-- GET /package/{limit}/{offset} from test_app.py: count of all keys and the
Python slice keys[offset : offset + limit]. -/
def get_packages (st : MockState) (limit offset : Nat) :
    Resp Paginated × MockState :=
  (.ok 200
     ⟨(st.mock_packages.map (fun p => p.1)).length,
      pySlice (st.mock_packages.map (fun p => p.1)) offset (offset + limit)⟩,
   st)

/-- POST /user from test_app.py: rejects a duplicate username and, unlike
app.py, also rejects a package name absent from mock_packages. -/
def create_user (now : String) (st : MockState)
    (username passwd expdate package : String) :
    Resp StatusResponse × MockState :=
  if (alookup st.mock_users username).isSome then
    (.err 400 "User already exists" [], st)
  else if (alookup st.mock_packages package).isNone then
    (.err 400 "Package does not exist" [], st)
  else
    (.ok 201 ⟨"User created successfully"⟩,
     { st with
        mock_users :=
          ainsert st.mock_users username ⟨username, passwd, expdate, package, now⟩ })

/-- GET /user/{username} from test_app.py. -/
def get_user (st : MockState) (username : String) : Resp LogData × MockState :=
  match alookup st.mock_users username with
  | none => (.err 404 "User not found" [], st)
  | some u =>
      (.ok 200 ⟨[(username, u.passwd), (username, u.expdate)]⟩, st)

/-- DELETE /user/{username} from test_app.py: 404 when absent, else remove
the user entry and, when present, the user's accounting entry. -/
def delete_user (st : MockState) (username : String) :
    Resp StatusResponse × MockState :=
  if (alookup st.mock_users username).isNone then
    (.err 404 "User not found" [], st)
  else
    (.ok 200 ⟨"User deleted successfully"⟩,
     { st with
        mock_users := aerase st.mock_users username,
        mock_accounting :=
          if (alookup st.mock_accounting username).isSome then
            aerase st.mock_accounting username
          else st.mock_accounting })

/-- GET /online/{username} from test_app.py: 404 when the user is absent,
otherwise the mock unconditionally reports Online. -/
def get_user_online_status (st : MockState) (username : String) :
    Resp OnlineStatus × MockState :=
  if (alookup st.mock_users username).isNone then
    (.err 404 "User not found" [], st)
  else
    (.ok 200 ⟨"Online"⟩, st)

/-- POST /nas handler body from test_app.py. -/
def create_nas (now : String) (st : MockState)
    (nasname shortname secret ty description : String) :
    Resp StatusResponse × MockState :=
  if (alookup st.mock_nas nasname).isSome then
    (.err 400 "NAS already exists" [], st)
  else
    (.ok 200 ⟨"NAS created successfully"⟩,
     { st with
        mock_nas :=
          ainsert st.mock_nas nasname
            ⟨nasname, shortname, secret, ty, description, now⟩ })

/-- POST /nas route from test_app.py with the same query defaults as
app.py. -/
def create_nas_route (now : String) (st : MockState)
    (nasname shortname secret : String) (ty description : Option String) :
    Resp StatusResponse × MockState :=
  create_nas now st nasname shortname secret (ty.getD "other")
    (description.getD "RADIUS Client")

/-- POST /session-dis from test_app.py: the mock always succeeds. -/
def disconnect_session : Resp StatusResponse :=
  .ok 200 ⟨"User session disconnected successfully (mock)"⟩

end TestApp

/-- A store holding the single user alice with no accounting sessions. -/
def dbAlice : Db :=
  { emptyDb with radcheck := [⟨"alice", "Cleartext-Password", ":=", "pw123"⟩] }

/-- A store already holding a NAS named nas1. -/
def dbNas1 : Db :=
  { emptyDb with nas := [⟨"nas1", "s1", "other", "sec", "RADIUS Client"⟩] }

/-- A mock store with two users and an accounting entry for each. -/
def mockSt0 : MockState :=
  { mock_users :=
      [("alice", ⟨"alice", "pw", "2025-01-01", "basic_package", "t0"⟩),
       ("carol", ⟨"carol", "pw2", "2025-01-01", "basic_package", "t0"⟩)],
    mock_packages := mockInit.mock_packages,
    mock_accounting := [("alice", "sess-a"), ("carol", "sess-c")],
    mock_nas := [] }

/-- Looking up a key different from a freshly appended one is unchanged. -/
theorem alookup_ainsert_ne {β : Type} (l : List (String × β)) (u : String)
    (r : β) (v : String) (h : v ≠ u) :
    alookup (ainsert l u r) v = alookup l v := by
  unfold alookup ainsert
  rw [List.find?_append]
  have h1 : List.find? (fun p => p.1 == v) [(u, r)] = none := by
    apply List.find?_eq_none.mpr
    intro a ha
    rw [List.mem_singleton] at ha
    subst ha
    simp only [beq_iff_eq]
    exact Ne.symm h
  rw [h1, Option.or_none]

/-- Finding a key different from the erased one is unaffected by the
erasure. -/
theorem find?_key_erase_ne {β : Type} (l : List (String × β)) (u v : String)
    (h : v ≠ u) :
    (l.filter (fun p => p.1 != u)).find? (fun p => p.1 == v)
      = l.find? (fun p => p.1 == v) := by
  induction l with
  | nil => rfl
  | cons a l ih =>
    rcases eq_or_ne a.1 u with hau | hau
    · have h2 : ¬ ((a.1 == v) = true) := by
        simp only [beq_iff_eq, hau]
        exact Ne.symm h
      rw [List.filter_cons_of_neg (by simp [hau]),
        show List.find? (fun p => p.1 == v) (a :: l)
            = List.find? (fun p => p.1 == v) l from
          List.find?_cons_of_neg l h2]
      exact ih
    · rw [List.filter_cons_of_pos (by simp [hau])]
      rcases eq_or_ne a.1 v with hav | hav
      · rw [show List.find? (fun p => p.1 == v)
              (a :: List.filter (fun p => p.1 != u) l) = some a from
            List.find?_cons_of_pos _ (by simp [hav]),
          show List.find? (fun p => p.1 == v) (a :: l) = some a from
            List.find?_cons_of_pos _ (by simp [hav])]
      · rw [show List.find? (fun p => p.1 == v)
              (a :: List.filter (fun p => p.1 != u) l)
              = List.find? (fun p => p.1 == v)
                  (List.filter (fun p => p.1 != u) l) from
            List.find?_cons_of_neg _ (by simp [hav]),
          show List.find? (fun p => p.1 == v) (a :: l)
              = List.find? (fun p => p.1 == v) l from
            List.find?_cons_of_neg _ (by simp [hav])]
        exact ih

/-- Looking up a key different from the erased one is unchanged. -/
theorem alookup_aerase_ne {β : Type} (l : List (String × β)) (u v : String)
    (h : v ≠ u) : alookup (aerase l u) v = alookup l v := by
  unfold alookup aerase
  rw [find?_key_erase_ne l u v h]

/-- Looking up the erased key yields nothing. -/
theorem alookup_aerase_self {β : Type} (l : List (String × β)) (u : String) :
    alookup (aerase l u) u = none := by
  unfold alookup aerase
  have h1 : (l.filter (fun p => p.1 != u)).find? (fun p => p.1 == u) = none := by
    apply List.find?_eq_none.mpr
    intro a ha
    rw [List.mem_filter] at ha
    simp only [beq_iff_eq]
    simpa using ha.2
  rw [h1]
  rfl

/-- Existence of a radcheck row for a user is what the COUNT(*) guard of the
handlers tests. -/
theorem userHasCheckRow_countP (db : Db) (u : String) :
    App.UserHasCheckRow db u ↔
      0 < db.radcheck.countP (fun r => r.username == u) := by
  constructor
  · rintro ⟨r, hr, he⟩
    exact List.countP_pos_iff.mpr ⟨r, hr, by simp [he]⟩
  · intro h
    obtain ⟨r, hr, hb⟩ := List.countP_pos_iff.mp h
    exact ⟨r, hr, by simpa using hb⟩

/-- Having an open session is what the COUNT(*) of the online query tests. -/
theorem hasOpenSession_countP (db : Db) (u : String) :
    App.HasOpenSession db u ↔
      0 < db.radacct.countP
        (fun r => r.username == u && r.acctstoptime == none) := by
  constructor
  · rintro ⟨r, hr, h1, h2⟩
    exact List.countP_pos_iff.mpr ⟨r, hr, by simp [h1, h2]⟩
  · intro h
    obtain ⟨r, hr, hb⟩ := List.countP_pos_iff.mp h
    simp only [Bool.and_eq_true, beq_iff_eq] at hb
    exact ⟨r, hr, hb.1, hb.2⟩

/-- C3: for every store holding N packages and all non-negative limit and
offset, GET /package/{limit}/{offset} returns count = N and a data list of
length min(limit, max(0, N - offset)), in the raw-SQL variant (N = number of
distinct group names in radgroupcheck) and in the in-memory variant (N =
number of entries of the package dictionary); Nat subtraction supplies the
max(0, _). -/
theorem get_packages_pagination :
    (∀ (db : Db) (limit offset : Nat),
       (App.get_packages db limit offset).1.bodyCount = App.numPackages db ∧
       (App.get_packages db limit offset).1.bodyLen
         = min limit (App.numPackages db - offset)) ∧
    (∀ (st : MockState) (limit offset : Nat),
       (TestApp.get_packages st limit offset).1.bodyCount
         = st.mock_packages.length ∧
       (TestApp.get_packages st limit offset).1.bodyLen
         = min limit (st.mock_packages.length - offset)) := by
  constructor
  · intro db limit offset
    refine ⟨rfl, ?_⟩
    simp [App.get_packages, Resp.bodyLen, App.numPackages, List.length_take,
      List.length_drop]
  · intro st limit offset
    constructor
    · simp [TestApp.get_packages, Resp.bodyCount, List.length_map]
    · simp only [TestApp.get_packages, Resp.bodyLen, pySlice,
        List.length_drop, List.length_take, List.length_map]
      omega

/-- C1 counterexample: the raw-SQL variant and the in-memory variant do not
produce the same observable outcome on the POST /user endpoint they share:
from their initial stores, creating alice with the nonexistent package name
nopkg yields status 201 in the raw-SQL variant and status 400 in the
in-memory variant. -/
theorem createUser_variants_disagree :
    ¬ ((App.create_user emptyDb "alice" "pw123" "2025-12-31" "nopkg").1.statusCode
        = (TestApp.create_user "t0" mockInit "alice" "pw123" "2025-12-31"
            "nopkg").1.statusCode) := by
  decide

/-- C1 amended: the two variants share the bearer-token gate contract
(verify_token behaves identically), but they are not outcome-equivalent on
every endpoint they share: a POST /user referencing a nonexistent package
succeeds with 201 in the raw-SQL variant and fails with 400 in the
in-memory variant. -/
theorem variants_share_auth_gate_but_not_createUser :
    (∀ (bearerToken : String) (credentials : Option String),
       App.verify_token bearerToken credentials
         = TestApp.verify_token bearerToken credentials) ∧
    (App.create_user emptyDb "alice" "pw123" "2025-12-31"
        "nopkg").1.statusCode = 201 ∧
    (TestApp.create_user "t0" mockInit "alice" "pw123" "2025-12-31"
        "nopkg").1.statusCode = 400 := by
  refine ⟨fun t c => ?_, by decide, by decide⟩
  cases c <;> rfl

/-- C2, evaluated on the code: app.py's POST /user performs no existence
check on the referenced package.  On an empty store, where package nopkg
does not exist, it returns 201 and leaves check-attribute rows and a
membership row for the new username; the in-memory variant implements the
check the claim (and the spec) describe, failing with 400 and leaving the
store unchanged. -/
theorem createUser_missing_package_behavior :
    (¬ ∃ r ∈ emptyDb.radgroupcheck, r.groupname = "nopkg") ∧
    (App.create_user emptyDb "bob" "pw" "2026-01-01" "nopkg").1.statusCode
      = 201 ∧
    0 < (App.create_user emptyDb "bob" "pw" "2026-01-01"
          "nopkg").2.radcheck.countP (fun r => r.username == "bob") ∧
    0 < (App.create_user emptyDb "bob" "pw" "2026-01-01"
          "nopkg").2.radusergroup.countP (fun r => r.username == "bob") ∧
    (TestApp.create_user "t0" mockInit "bob" "pw" "2026-01-01" "nopkg").1
      = .err 400 "Package does not exist" [] ∧
    (TestApp.create_user "t0" mockInit "bob" "pw" "2026-01-01" "nopkg").2
      = mockInit := by
  decide

/-- C8 counterexample: POST /nas declares no explicit success status code,
so a successful creation returns the framework default 200, not the 201 the
claim states. -/
theorem create_nas_status_not_201 :
    ¬ ((App.create_nas_route emptyDb "nas1" "short1" "sec"
          none none).1.statusCode = 201) := by
  decide

/-- C8 amended: for every POST /nas request whose name is not already
registered, the operation inserts exactly one NAS row and returns status
code 200 (not 201); an omitted type query parameter stores "other" and an
omitted description stores "RADIUS Client"; a registered name fails with
400 and leaves the store unchanged. -/
theorem create_nas_spec (db : Db) (nasname shortname secret : String)
    (ty description : Option String) :
    ((∀ r ∈ db.nas, r.nasname ≠ nasname) →
       (App.create_nas_route db nasname shortname secret ty description).1
         = .ok 200 ⟨"NAS created successfully"⟩ ∧
       (App.create_nas_route db nasname shortname secret ty description).2.nas
         = db.nas ++ [⟨nasname, shortname, ty.getD "other", secret,
                       description.getD "RADIUS Client"⟩]) ∧
    ((∃ r ∈ db.nas, r.nasname = nasname) →
       (App.create_nas_route db nasname shortname secret ty description).1
         = .err 400 "NAS already exists" [] ∧
       (App.create_nas_route db nasname shortname secret ty description).2
         = db) := by
  constructor
  · intro h
    have hz : ¬ 0 < db.nas.countP (fun r => r.nasname == nasname) := by
      rw [List.countP_pos_iff]
      rintro ⟨r, hr, hb⟩
      exact h r hr (by simpa using hb)
    unfold App.create_nas_route App.create_nas
    rw [if_neg hz]
    exact ⟨rfl, rfl⟩
  · intro h
    have hp : 0 < db.nas.countP (fun r => r.nasname == nasname) := by
      obtain ⟨r, hr, he⟩ := h
      exact List.countP_pos_iff.mpr ⟨r, hr, by simp [he]⟩
    unfold App.create_nas_route App.create_nas
    rw [if_pos hp]
    exact ⟨rfl, rfl⟩

/-- C8 witness: creating nas1 on an empty store with both optional query
parameters omitted stores the row with type "other" and description
"RADIUS Client"; creating it again on a store already registering nas1
fails with 400. -/
theorem create_nas_spec_witness :
    (App.create_nas_route emptyDb "nas1" "short1" "sec" none none).2.nas
      = [⟨"nas1", "short1", "other", "sec", "RADIUS Client"⟩] ∧
    (App.create_nas_route dbNas1 "nas1" "short1" "sec" none none).1
      = .err 400 "NAS already exists" [] := by
  constructor
  · have h := ((create_nas_spec emptyDb "nas1" "short1" "sec" none none).1
      (by decide)).2
    simpa [emptyDb] using h
  · exact ((create_nas_spec dbNas1 "nas1" "short1" "sec" none none).2
      (by decide)).1

/-- C9: POST /session-dis issues exactly one external disconnect attempt
(radclient retry count 1) bounded by a 30-second timeout; the response is
200 exactly when the command exits with return code zero; every non-zero
exit and the timeout map to a 500 whose detail is a fixed string exposing
nothing of the command's output. -/
theorem disconnect_session_spec :
    (∀ session nas, (App.disconnectCmd session nas).retries = 1 ∧
       (App.disconnectCmd session nas).timeoutSeconds = 30) ∧
    (∀ o : App.CmdOutcome,
       ((App.disconnect_session o).statusCode = 200 ↔
         ∃ out err, o = .exited 0 out err)) ∧
    (∀ (rc : Int) (out err : String), rc ≠ 0 →
       (App.disconnect_session (.exited rc out err)).statusCode = 500) ∧
    ((App.disconnect_session .timedOut).statusCode = 500) ∧
    (∀ (rc : Int) (out1 err1 out2 err2 : String),
       App.disconnect_session (.exited rc out1 err1)
         = App.disconnect_session (.exited rc out2 err2)) := by
  refine ⟨fun s n => ⟨rfl, rfl⟩, ?_, ?_, rfl, fun rc o1 e1 o2 e2 => rfl⟩
  · intro o
    cases o with
    | exited rc out err =>
      by_cases h : rc = 0
      · subst h
        exact ⟨fun _ => ⟨out, err, rfl⟩, fun _ => rfl⟩
      · constructor
        · intro hs
          exfalso
          simp [App.disconnect_session, h, Resp.statusCode] at hs
        · rintro ⟨o2, e2, heq⟩
          injection heq with h1 h2 h3
          exact absurd h1 h
    | timedOut =>
      constructor
      · intro hs
        simp [App.disconnect_session, Resp.statusCode] at hs
      · rintro ⟨o2, e2, heq⟩
        cases heq
  · intro rc out err h
    simp [App.disconnect_session, h, Resp.statusCode]

/-- C9 witness: a disconnect command acknowledged with exit status 1 is
reported as a 500 failure. -/
theorem disconnect_session_spec_witness :
    (App.disconnect_session (.exited 1 "out" "err")).statusCode = 500 :=
  disconnect_session_spec.2.2.1 1 "out" "err" (by decide)

/-- C4: GET /online/{username} fails with 404 when the user has no
check-attribute rows; otherwise it returns 200 with status Online exactly
when at least one of the user's accounting sessions has a null stop time,
and Offline otherwise (in particular an existing user with zero sessions is
Offline), leaving the store untouched. -/
theorem get_user_online_status_spec (db : Db) (u : String) :
    (¬ App.UserHasCheckRow db u →
       App.get_user_online_status db u = (.err 404 "User not found" [], db)) ∧
    (App.UserHasCheckRow db u →
       App.get_user_online_status db u
         = (.ok 200 ⟨if App.HasOpenSession db u then "Online" else "Offline"⟩,
            db)) := by
  constructor
  · intro h
    have hz : db.radcheck.countP (fun r => r.username == u) = 0 := by
      have h2 : ¬ 0 < db.radcheck.countP (fun r => r.username == u) :=
        fun hp => h ((userHasCheckRow_countP db u).mpr hp)
      omega
    unfold App.get_user_online_status
    rw [if_pos hz]
  · intro h
    have hz : ¬ db.radcheck.countP (fun r => r.username == u) = 0 := by
      have h2 := (userHasCheckRow_countP db u).mp h
      omega
    unfold App.get_user_online_status
    rw [if_neg hz]
    by_cases ho : App.HasOpenSession db u
    · rw [if_pos ((hasOpenSession_countP db u).mp ho), if_pos ho]
    · rw [if_neg (fun hp => ho ((hasOpenSession_countP db u).mpr hp)),
        if_neg ho]

/-- C4 witness: alice exists in dbAlice with no accounting sessions, so her
online status is 200 Offline. -/
theorem get_user_online_status_spec_witness :
    App.UserHasCheckRow dbAlice "alice" ∧
    App.get_user_online_status dbAlice "alice"
      = (.ok 200 ⟨"Offline"⟩, dbAlice) := by
  refine ⟨by decide, ?_⟩
  rw [(get_user_online_status_spec dbAlice "alice").2 (by decide)]
  decide

/-- C5: DELETE /user/{username} returns 404 and leaves the store unchanged
when the user is absent; when the user exists it succeeds with 200, the
resulting store has no radcheck row and no radusergroup row for that
username, and a subsequent GET /user/{username} on the resulting store
returns 404. -/
theorem delete_user_spec (db : Db) (u : String) :
    (¬ App.UserHasCheckRow db u →
       App.delete_user db u = (.err 404 "User not found" [], db)) ∧
    (App.UserHasCheckRow db u →
       (App.delete_user db u).1 = .ok 200 ⟨"User deleted successfully"⟩ ∧
       (∀ r ∈ (App.delete_user db u).2.radcheck, r.username ≠ u) ∧
       (∀ r ∈ (App.delete_user db u).2.radusergroup, r.username ≠ u) ∧
       (App.get_user (App.delete_user db u).2 u).1
         = .err 404 "User not found" []) := by
  constructor
  · intro h
    have hz : db.radcheck.countP (fun r => r.username == u) = 0 := by
      have h2 : ¬ 0 < db.radcheck.countP (fun r => r.username == u) :=
        fun hp => h ((userHasCheckRow_countP db u).mpr hp)
      omega
    unfold App.delete_user
    rw [if_pos hz]
  · intro h
    have hz : ¬ db.radcheck.countP (fun r => r.username == u) = 0 := by
      have h2 := (userHasCheckRow_countP db u).mp h
      omega
    have hstep : App.delete_user db u
        = (.ok 200 ⟨"User deleted successfully"⟩,
           { db with
              radcheck := db.radcheck.filter (fun r => r.username != u),
              radusergroup :=
                db.radusergroup.filter (fun r => r.username != u) }) := by
      unfold App.delete_user
      rw [if_neg hz]
    have hnil : (db.radcheck.filter (fun r => r.username != u)).filter
        (fun r => r.username == u) = [] := by
      apply List.filter_eq_nil_iff.mpr
      intro a ha
      rw [List.mem_filter] at ha
      simp only [beq_iff_eq]
      simpa using ha.2
    refine ⟨by rw [hstep], ?_, ?_, ?_⟩
    · intro r hr
      rw [hstep] at hr
      have hr2 : r ∈ db.radcheck.filter (fun x => x.username != u) := hr
      rw [List.mem_filter] at hr2
      simpa using hr2.2
    · intro r hr
      rw [hstep] at hr
      have hr2 : r ∈ db.radusergroup.filter (fun x => x.username != u) := hr
      rw [List.mem_filter] at hr2
      simpa using hr2.2
    · rw [hstep]
      simp [App.get_user, hnil]

/-- C5 witness: deleting the existing user alice succeeds and a subsequent
get returns 404. -/
theorem delete_user_spec_witness :
    (App.delete_user dbAlice "alice").1
      = .ok 200 ⟨"User deleted successfully"⟩ ∧
    (App.get_user (App.delete_user dbAlice "alice").2 "alice").1
      = .err 404 "User not found" [] :=
  ⟨((delete_user_spec dbAlice "alice").2 (by decide)).1,
   ((delete_user_spec dbAlice "alice").2 (by decide)).2.2.2⟩

/-- C6: starting from a store with no rows for the package name, creating
the package succeeds with 201, creating it again fails with 400 and changes
nothing, and after both calls the store holds exactly the one
Simultaneous-Use := 1 check row and the two reply rows
Framed-Pool = pool and Acct-Interim-Interval = 120 for that name, with no
duplicates. -/
theorem create_package_twice_spec (db : Db) (name pool : String)
    (h1 : ∀ r ∈ db.radgroupcheck, r.groupname ≠ name)
    (h2 : ∀ r ∈ db.radgroupreply, r.groupname ≠ name) :
    (App.create_package db name pool).1
      = .ok 201 ⟨"Package created successfully"⟩ ∧
    (App.create_package (App.create_package db name pool).2 name pool).1
      = .err 400 "Package already exists" [] ∧
    (App.create_package (App.create_package db name pool).2 name pool).2
      = (App.create_package db name pool).2 ∧
    (App.create_package (App.create_package db name pool).2 name
        pool).2.radgroupcheck.filter (fun r => r.groupname == name)
      = [⟨name, "Simultaneous-Use", ":=", "1"⟩] ∧
    (App.create_package (App.create_package db name pool).2 name
        pool).2.radgroupreply.filter (fun r => r.groupname == name)
      = [⟨name, "Framed-Pool", "=", pool⟩,
         ⟨name, "Acct-Interim-Interval", "=", "120"⟩] := by
  have hz : db.radgroupcheck.countP (fun r => r.groupname == name) = 0 := by
    apply List.countP_eq_zero.mpr
    intro r hr
    simp only [beq_iff_eq]
    exact h1 r hr
  have e1 : App.create_package db name pool
      = (.ok 201 ⟨"Package created successfully"⟩,
         { db with
            radgroupcheck :=
              db.radgroupcheck ++ [⟨name, "Simultaneous-Use", ":=", "1"⟩],
            radgroupreply :=
              db.radgroupreply ++
                [⟨name, "Framed-Pool", "=", pool⟩,
                 ⟨name, "Acct-Interim-Interval", "=", "120"⟩] }) := by
    unfold App.create_package
    rw [if_neg (by omega)]
  have hcnt : 0 < ((db.radgroupcheck ++
      [⟨name, "Simultaneous-Use", ":=", "1"⟩] : List GroupRow)).countP
      (fun r => r.groupname == name) := by
    rw [List.countP_append, hz]
    simp
  have e2 : App.create_package
      ({ db with
          radgroupcheck :=
            db.radgroupcheck ++ [⟨name, "Simultaneous-Use", ":=", "1"⟩],
          radgroupreply :=
            db.radgroupreply ++
              [⟨name, "Framed-Pool", "=", pool⟩,
               ⟨name, "Acct-Interim-Interval", "=", "120"⟩] } : Db) name pool
      = (.err 400 "Package already exists" [],
         { db with
            radgroupcheck :=
              db.radgroupcheck ++ [⟨name, "Simultaneous-Use", ":=", "1"⟩],
            radgroupreply :=
              db.radgroupreply ++
                [⟨name, "Framed-Pool", "=", pool⟩,
                 ⟨name, "Acct-Interim-Interval", "=", "120"⟩] }) := by
    unfold App.create_package
    rw [if_pos hcnt]
  have hf1 : db.radgroupcheck.filter (fun r => r.groupname == name) = [] := by
    apply List.filter_eq_nil_iff.mpr
    intro a ha
    simp only [beq_iff_eq]
    exact h1 a ha
  have hf2 : db.radgroupreply.filter (fun r => r.groupname == name) = [] := by
    apply List.filter_eq_nil_iff.mpr
    intro a ha
    simp only [beq_iff_eq]
    exact h2 a ha
  rw [e1]
  refine ⟨rfl, ?_, ?_, ?_, ?_⟩
  · rw [e2]
  · rw [e2]
  · rw [e2]
    simp [List.filter_append, hf1]
  · rw [e2]
    simp [List.filter_append, hf2]

/-- C6 witness: creating package gold twice on an empty store gives 201
then 400, and the final store holds exactly one Simultaneous-Use check row
for gold. -/
theorem create_package_twice_spec_witness :
    (App.create_package emptyDb "gold" "poolA").1
      = .ok 201 ⟨"Package created successfully"⟩ ∧
    (App.create_package (App.create_package emptyDb "gold" "poolA").2 "gold"
        "poolA").1 = .err 400 "Package already exists" [] ∧
    (App.create_package (App.create_package emptyDb "gold" "poolA").2 "gold"
        "poolA").2.radgroupcheck.filter (fun r => r.groupname == "gold")
      = [⟨"gold", "Simultaneous-Use", ":=", "1"⟩] := by
  have h := create_package_twice_spec emptyDb "gold" "poolA" (by decide)
    (by decide)
  exact ⟨h.1, h.2.1, h.2.2.2.1⟩

/-- C7: for every protected route of either variant (all protected routes
run the handler through the Depends(verify_token) wiring embedded as
`guarded`), a request whose bearer credential is missing or differs from
the configured secret is answered with a 401 carrying the
WWW-Authenticate Bearer challenge; the store is returned unchanged and the
response does not depend on the store, so the store is neither read nor
written before the rejection. -/
theorem bad_token_rejected_before_store
    (bearerToken : String) (credentials : Option String)
    (hbad : ∀ c, credentials = some c → c ≠ bearerToken)
    {α : Type} (handler : Db → Resp α × Db) (db db2 : Db)
    (mhandler : MockState → Resp α × MockState) (st st2 : MockState) :
    (App.guarded bearerToken credentials handler db).2 = db ∧
    (App.guarded bearerToken credentials handler db).1.statusCode = 401 ∧
    (App.guarded bearerToken credentials handler db).1.challengeHeader
      = true ∧
    (App.guarded bearerToken credentials handler db).1
      = (App.guarded bearerToken credentials handler db2).1 ∧
    (TestApp.guarded bearerToken credentials mhandler st).2 = st ∧
    (TestApp.guarded bearerToken credentials mhandler st).1.statusCode
      = 401 ∧
    (TestApp.guarded bearerToken credentials mhandler st).1.challengeHeader
      = true ∧
    (TestApp.guarded bearerToken credentials mhandler st).1
      = (TestApp.guarded bearerToken credentials mhandler st2).1 := by
  cases credentials with
  | none =>
    exact ⟨rfl, rfl, rfl, rfl, rfl, rfl, rfl, rfl⟩
  | some c =>
    have hc : (c != bearerToken) = true := bne_iff_ne.mpr (hbad c rfl)
    have hv : App.verify_token bearerToken (some c)
        = .rejected 401 "Invalid authentication token"
            [("WWW-Authenticate", "Bearer")] := by
      simp [App.verify_token, hc]
    have hv2 : TestApp.verify_token bearerToken (some c)
        = .rejected 401 "Invalid authentication token"
            [("WWW-Authenticate", "Bearer")] := by
      simp [TestApp.verify_token, hc]
    refine ⟨?_, ?_, ?_, ?_, ?_, ?_, ?_, ?_⟩ <;>
      simp [App.guarded, TestApp.guarded, hv, hv2, Resp.statusCode,
        Resp.challengeHeader, List.contains]

/-- C7 witness: with a wrong credential, the guarded package-creation route
of the raw-SQL variant answers 401 with the Bearer challenge and leaves the
empty store unchanged, and the guarded mock route leaves the mock store
unchanged. -/
theorem bad_token_rejected_before_store_witness :
    (App.guarded "secret-token" (some "wrong")
        (fun db => App.create_package db "p1" "poolA") emptyDb).2
      = emptyDb ∧
    (App.guarded "secret-token" (some "wrong")
        (fun db => App.create_package db "p1" "poolA")
        emptyDb).1.statusCode = 401 ∧
    (App.guarded "secret-token" (some "wrong")
        (fun db => App.create_package db "p1" "poolA")
        emptyDb).1.challengeHeader = true ∧
    (TestApp.guarded "secret-token" (some "wrong")
        (fun st => TestApp.create_package "t0" st "p1" "poolA" "prof1")
        mockInit).2 = mockInit := by
  have h := bad_token_rejected_before_store "secret-token" (some "wrong")
    (by
      intro c hc
      injection hc with h2
      subst h2
      decide)
    (fun db => App.create_package db "p1" "poolA") emptyDb dbAlice
    (fun st => TestApp.create_package "t0" st "p1" "poolA" "prof1")
    mockInit mockSt0
  exact ⟨h.1, h.2.1, h.2.2.1, h.2.2.2.2.1⟩

/-- C10: in the in-memory variant, creating user u touches only the user
dictionary and only at key u (other users, the package, NAS and accounting
dictionaries are unchanged); deleting user u leaves other users, the
package and NAS dictionaries and other accounting entries unchanged, and
when u existed it additionally removes u's accounting entry. -/
theorem mock_user_writes_frame (st : MockState)
    (now u passwd expdate pkg v : String) (hvu : v ≠ u) :
    (alookup (TestApp.create_user now st u passwd expdate pkg).2.mock_users v
       = alookup st.mock_users v ∧
     (TestApp.create_user now st u passwd expdate pkg).2.mock_packages
       = st.mock_packages ∧
     (TestApp.create_user now st u passwd expdate pkg).2.mock_nas
       = st.mock_nas ∧
     (TestApp.create_user now st u passwd expdate pkg).2.mock_accounting
       = st.mock_accounting) ∧
    (alookup (TestApp.delete_user st u).2.mock_users v
       = alookup st.mock_users v ∧
     (TestApp.delete_user st u).2.mock_packages = st.mock_packages ∧
     (TestApp.delete_user st u).2.mock_nas = st.mock_nas ∧
     alookup (TestApp.delete_user st u).2.mock_accounting v
       = alookup st.mock_accounting v ∧
     ((alookup st.mock_users u).isSome →
        alookup (TestApp.delete_user st u).2.mock_accounting u = none)) := by
  constructor
  · unfold TestApp.create_user
    by_cases h1 : (alookup st.mock_users u).isSome = true
    · rw [if_pos h1]
      exact ⟨rfl, rfl, rfl, rfl⟩
    · rw [if_neg h1]
      by_cases h2 : (alookup st.mock_packages pkg).isNone = true
      · rw [if_pos h2]
        exact ⟨rfl, rfl, rfl, rfl⟩
      · rw [if_neg h2]
        exact ⟨alookup_ainsert_ne _ _ _ _ hvu, rfl, rfl, rfl⟩
  · unfold TestApp.delete_user
    by_cases h1 : (alookup st.mock_users u).isNone = true
    · rw [if_pos h1]
      refine ⟨rfl, rfl, rfl, rfl, ?_⟩
      intro hs
      rw [Option.isNone_iff_eq_none] at h1
      rw [h1] at hs
      cases hs
    · rw [if_neg h1]
      refine ⟨alookup_aerase_ne _ _ _ hvu, rfl, rfl, ?_, ?_⟩
      · show alookup
            (if (alookup st.mock_accounting u).isSome then
               aerase st.mock_accounting u
             else st.mock_accounting) v = alookup st.mock_accounting v
        by_cases h2 : (alookup st.mock_accounting u).isSome = true
        · rw [if_pos h2]
          exact alookup_aerase_ne _ _ _ hvu
        · rw [if_neg h2]
      · intro _
        show alookup
            (if (alookup st.mock_accounting u).isSome then
               aerase st.mock_accounting u
             else st.mock_accounting) u = none
        by_cases h2 : (alookup st.mock_accounting u).isSome = true
        · rw [if_pos h2]
          exact alookup_aerase_self _ _
        · rw [if_neg h2]
          rcases halo : alookup st.mock_accounting u with _ | w
          · rfl
          · exfalso
            apply h2
            rw [halo]
            rfl

/-- C10 witness: deleting alice from a mock store holding alice and carol
with accounting entries for both removes alice's accounting entry and
leaves carol's intact. -/
theorem mock_user_writes_frame_witness :
    alookup (TestApp.delete_user mockSt0 "alice").2.mock_accounting "carol"
      = alookup mockSt0.mock_accounting "carol" ∧
    alookup (TestApp.delete_user mockSt0 "alice").2.mock_accounting "alice"
      = none :=
  ⟨(mock_user_writes_frame mockSt0 "t0" "alice" "pw" "2025-01-01"
      "basic_package" "carol" (by decide)).2.2.2.2.1,
   (mock_user_writes_frame mockSt0 "t0" "alice" "pw" "2025-01-01"
      "basic_package" "carol" (by decide)).2.2.2.2.2 (by decide)⟩
